import Mathlib

/-!
Verification of the connection-establishment core of the libsignal
repository: the `ConnectState::connect_ws` / `connect_attested_ws` error
handling (src/rust/net/src/connect_state.rs) and the registration session
client (src/rust/net/src/registration/service.rs), shallowly embedded over
virtual time.  Durations and instants are rational numbers of seconds, so
that tokio's paused-clock tests translate to exact arithmetic.
-/

deriving instance DecidableEq for Except

namespace LibsignalNet

/-- Durations and instants are modelled as rational numbers of seconds. -/
abbrev Duration := ℚ

/-- Model of `std::time::Duration::MAX`, used by the registration client as
the spacing before the first recorded failure.  Any value at least
`age_cutoff` behaves identically; we use the u64 second bound. -/
def durationMax : Duration := 18446744073709551615

/-- Transport-level connect error
(`libsignal_net_infra::errors::TransportConnectError`), restricted to the
variants the claims exercise.  `clientAbort` signals intentional
cancellation rather than external failure. -/
inductive TransportConnectError where
  | clientAbort
  | tcpConnectionFailed
deriving DecidableEq

/-- WebSocket-level connect error (`WebSocketConnectError`): a transport
failure before the HTTP upgrade, or a timeout during the upgrade. -/
inductive WebSocketConnectError where
  | transport (e : TransportConnectError)
  | timeout
deriving DecidableEq

/-- Modelled from the spec: `crate::ws::WebSocketServiceConnectError` is not
under src/.  With no confirmation header in play the error is never treated
as a server rejection, so only the `Connect` shape (tagged
`NotRejectedByServer` in the source) arises; the src test
`client_abort_transport_error_is_fatal` pins this shape. -/
inductive WebSocketServiceConnectError where
  | connect (e : WebSocketConnectError)
deriving DecidableEq

/-- Error classification returned by the classifier
(`libsignal_net_infra::connection_manager::ErrorClass`). -/
inductive ErrorClass where
  | intermittent
  | fatal
  | retryAt (t : Duration)
deriving DecidableEq

/-- Modelled from the spec: `WebSocketServiceConnectError::classify` is not
under src/.  Transport errors before the upgrade are intermittent, but
`ClientAbort` — the distinguished cancellation error — is classified
`Fatal` at the connector level. -/
def classify : WebSocketServiceConnectError → ErrorClass
  | .connect (.transport .clientAbort) => .fatal
  | .connect (.transport .tcpConnectionFailed) => .intermittent
  | .connect .timeout => .intermittent

/-- Error wrapper produced by the `InterfaceMonitor`: either the interface
changed, or the underlying connector failed. -/
inductive InterfaceChangedOr (E : Type) where
  | interfaceChanged
  | other (e : E)
deriving DecidableEq

/-- The `into_inner_or_else` call inside the `connect_ws` classifier closure
(connect_state.rs lines 304-306): an `InterfaceChanged` cancellation is
replaced by `Transport(ClientAbort)`. -/
def intoInnerOrElse : InterfaceChangedOr WebSocketConnectError → WebSocketConnectError
  | .interfaceChanged => .transport .clientAbort
  | .other e => e

/-- Modelled from the spec: `from_websocket_error` with no confirmation
header wraps the error without treating it as rejected by the server. -/
def fromWebsocketError (e : WebSocketConnectError) : WebSocketServiceConnectError :=
  .connect e

/-- Control-flow outcome of the classifier closure: continue with the next
route, or abandon the race carrying a fatal error. -/
inductive CFlow (B : Type) where
  | brk (b : B)
  | cont
deriving DecidableEq

/-- The error classifier closure that `ConnectState::connect_ws` passes to
the route racer (connect_state.rs lines 303-317). -/
def connectWsClassifier (e : InterfaceChangedOr WebSocketConnectError) :
    CFlow WebSocketServiceConnectError :=
  let err := fromWebsocketError (intoInnerOrElse e)
  match classify err with
  | .intermittent => .cont
  | .fatal => .brk err
  | .retryAt _ => .brk err

/-- Terminal errors of the route racer
(`libsignal_net_infra::route::ConnectError`). -/
inductive ConnectError (F : Type) where
  | noResolvedRoutes
  | allAttemptsFailed
  | fatalConnect (f : F)
deriving DecidableEq

/-- Modelled from the spec: the route racer
(`crate::infra::route::connect`) is not under src/.  Spec section 4.1:
attempt outcomes are collected in completion order; an `Ok` wins and
cancels the rest; an error classified `Continue` records a failure outcome
and moves on; a `Break(err)` cancels all in-flight attempts and returns
`FatalConnect(err)`; exhaustion yields `AllAttemptsFailed`. -/
def raceAttempts {E F C : Type} (classifyErr : E → CFlow F) :
    List (Except E C) → Except (ConnectError F) C
  | [] => .error .allAttemptsFailed
  | .ok c :: _ => .ok c
  | .error e :: rest =>
    match classifyErr e with
    | .cont => raceAttempts classifyErr rest
    | .brk f => .error (.fatalConnect f)

/-- Modelled from the spec: an empty post-resolution attempt list yields
`NoResolvedRoutes` (spec section 4.1 step 5). -/
def runRace {E F C : Type} (classifyErr : E → CFlow F)
    (attempts : List (Except E C)) : Except (ConnectError F) C :=
  match attempts with
  | [] => .error .noResolvedRoutes
  | _ :: _ => raceAttempts classifyErr attempts

/-- A timeout, carrying the attempt duration, or another error
(`libsignal_net_infra::timeouts::TimeoutOr`). -/
inductive TimeoutOr (E : Type) where
  | timeout (attempt_duration : Duration)
  | other (e : E)
deriving DecidableEq

/-- The timeout wrapper of `ConnectState::connect_ws` (connect_state.rs
lines 320-324): the race runs under
`tokio::time::timeout(connect_timeout, connect)`; if it has not completed
by then, the call returns `TimeoutOr::Timeout` carrying
`attempt_duration = connect_timeout`, at elapsed time `connect_timeout`.
The race is abstracted as its completion time and value (`none` = the race
never completes).  Returns the pair (elapsed time, result). -/
def connect_ws {C : Type} (connect_timeout : Duration)
    (race : Option (Duration × Except (ConnectError WebSocketServiceConnectError) C)) :
    Duration × Except (TimeoutOr (ConnectError WebSocketServiceConnectError)) C :=
  match race with
  | none => (connect_timeout, .error (.timeout connect_timeout))
  | some (t, r) =>
    if t < connect_timeout then (t, r.mapError .other)
    else (connect_timeout, .error (.timeout connect_timeout))

/-- The enclave-level errors produced by `connect_attested_ws`
(`crate::enclave::Error`, restricted to the two arms of the mapping). -/
inductive EnclaveError where
  | connectionTimedOut
  | webSocketConnect (e : WebSocketServiceConnectError)
deriving DecidableEq

/-- The error mapping of `ConnectState::connect_attested_ws`
(connect_state.rs lines 389-397): `NoResolvedRoutes`, `AllAttemptsFailed`
and `Timeout` all collapse to `ConnectionTimedOut`; only `FatalConnect(e)`
is surfaced distinctly. -/
def connect_attested_ws_error :
    TimeoutOr (ConnectError WebSocketServiceConnectError) → EnclaveError
  | .other .noResolvedRoutes => .connectionTimedOut
  | .other .allAttemptsFailed => .connectionTimedOut
  | .timeout _ => .connectionTimedOut
  | .other (.fatalConnect e) => .webSocketConnect e

/-- Server-provided retry hint (`libsignal_net_infra::errors::RetryLater`). -/
structure RetryLater where
  retry_after_seconds : Nat
deriving DecidableEq

/-- Chat connect errors (`crate::chat::ConnectError`), matching the variant
list exercised by `spawn_connected_chat`. -/
inductive ChatConnectError where
  | websocket (e : WebSocketConnectError)
  | appExpired
  | deviceDeregistered
  | timeout
  | allAttemptsFailed
  | invalidConnectionConfiguration
  | retryLater (r : RetryLater)
deriving DecidableEq

/-- The fatal outcomes of `spawn_connected_chat` (service.rs lines 201-206). -/
inductive FatalConnectError where
  | invalidConfiguration
  | retryLater (r : RetryLater)
  | unexpected (message : String)
deriving DecidableEq

/-- Modelled from the spec: `RequestError` (registration/error.rs is not
under src/); only the variants service.rs produces are needed: `Timeout`,
the `RetryLater` hint, and `Unknown(String)`. -/
inductive RequestError where
  | timeout
  | retryLater (r : RetryLater)
  | unknown (message : String)
deriving DecidableEq

/-- The `From FatalConnectError for RequestError` conversion (service.rs
lines 208-223). -/
def fatalToRequestError : FatalConnectError → RequestError
  | .invalidConfiguration => .unknown "invalid chat client configuration"
  | .retryLater r => .retryLater r
  | .unexpected message => .unknown ("unexpected error: " ++ message)

/-- Delay-policy parameter set
(`libsignal_net_infra::route::ConnectionOutcomeParams`). -/
structure ConnectionOutcomeParams where
  age_cutoff : Duration
  cooldown_growth_factor : ℚ
  count_growth_factor : ℚ
  max_count : Nat
  max_delay : Duration
deriving DecidableEq

/-- The constant `CHAT_CONNECT_DELAY_PARAMS` (service.rs lines 225-232). -/
def CHAT_CONNECT_DELAY_PARAMS : ConnectionOutcomeParams :=
  { age_cutoff := 60
    cooldown_growth_factor := 3 / 2
    count_growth_factor := 10
    max_count := 5
    max_delay := 30 }

/-- Modelled from the spec: `ConnectionOutcomeParams::compute_delay` is not
under src/; this follows the spec's pseudocode (section 4.2): stale history
(at least `age_cutoff` old) gives no delay, otherwise the delay grows as
`cooldown_growth_factor` to the capped failure count, multiplied by
`count_growth_factor` to the same power when the last attempt was very
recent, and is bounded by `max_delay`.  The spec leaves "very short"
unspecified, so that predicate is a parameter. -/
def compute_delay (veryShort : Duration → Bool) (p : ConnectionOutcomeParams)
    (since_last_attempt : Duration) (failure_count : Nat) : Duration :=
  if p.age_cutoff ≤ since_last_attempt then 0
  else
    let base := p.cooldown_growth_factor ^ min failure_count p.max_count
    let grown :=
      if veryShort since_last_attempt then
        base * p.count_growth_factor ^ min failure_count p.max_count
      else base
    min grown p.max_delay

/-- One scripted result of a `ConnectChat::connect_chat` call. -/
inductive ConnectAttemptResult where
  | ok
  | err (e : ChatConnectError)
deriving DecidableEq

/-- Elapsed time since the recorded previous failure, or `Duration::MAX`
when there was none; this mirrors
`last_failure_at.replace(now).map_or(Duration::MAX, |prev| now - prev)`
(service.rs lines 260-262). -/
def sinceLastFailure : Option Duration → Duration → Duration
  | none, _ => durationMax
  | some prev, now => now - prev

/-- How one retry of `spawn_connected_chat` transforms the result of the
remaining loop: one more connect call, the slept delay recorded in front. -/
def retryStep (delay : Duration) :
    Except FatalConnectError Unit ×
      List (Duration × ConnectAttemptResult) × Nat × List Duration × Duration →
    Except FatalConnectError Unit ×
      List (Duration × ConnectAttemptResult) × Nat × List Duration × Duration
  | (r, s, n, ds, t) => (r, s, n + 1, delay :: ds, t)

/-- The connect-with-retry loop of `spawn_connected_chat` (service.rs lines
237-295).  The environment is a script of `connect_chat` attempts, each
with the attempt's duration and its result.  Returns `none` when the
script is exhausted with the loop still running; otherwise the loop
result, the unconsumed script, the number of `connect_chat` calls made,
the delays slept between retries, and the finishing instant.  The failure
count starts at 0 and is incremented after each retryable failure; the
retry delay is computed from `CHAT_CONNECT_DELAY_PARAMS`, the time since
the previous failure, and the current failure count. -/
def spawn_connected_chat (veryShort : Duration → Bool) :
    List (Duration × ConnectAttemptResult) → Nat → Option Duration → Duration →
    Option (Except FatalConnectError Unit ×
      List (Duration × ConnectAttemptResult) × Nat × List Duration × Duration)
  | [], _, _, _ => none
  | (d, a) :: rest, failure_count, last_failure_at, now =>
    match a with
    | .ok => some (.ok (), rest, 1, [], now + d)
    | .err .invalidConnectionConfiguration =>
      some (.error .invalidConfiguration, rest, 1, [], now + d)
    | .err (.retryLater r) => some (.error (.retryLater r), rest, 1, [], now + d)
    | .err .appExpired =>
      some (.error (.unexpected "unauthenticated socket signaled app expired"),
        rest, 1, [], now + d)
    | .err .deviceDeregistered =>
      some (.error (.unexpected "unauthenticated socket signaled deregistration"),
        rest, 1, [], now + d)
    | .err .timeout =>
      (spawn_connected_chat veryShort rest (failure_count + 1) (some (now + d))
          ((now + d) + compute_delay veryShort CHAT_CONNECT_DELAY_PARAMS
            (sinceLastFailure last_failure_at (now + d)) failure_count)).map
        (retryStep (compute_delay veryShort CHAT_CONNECT_DELAY_PARAMS
          (sinceLastFailure last_failure_at (now + d)) failure_count))
    | .err .allAttemptsFailed =>
      (spawn_connected_chat veryShort rest (failure_count + 1) (some (now + d))
          ((now + d) + compute_delay veryShort CHAT_CONNECT_DELAY_PARAMS
            (sinceLastFailure last_failure_at (now + d)) failure_count)).map
        (retryStep (compute_delay veryShort CHAT_CONNECT_DELAY_PARAMS
          (sinceLastFailure last_failure_at (now + d)) failure_count))
    | .err (.websocket _) =>
      (spawn_connected_chat veryShort rest (failure_count + 1) (some (now + d))
          ((now + d) + compute_delay veryShort CHAT_CONNECT_DELAY_PARAMS
            (sinceLastFailure last_failure_at (now + d)) failure_count)).map
        (retryStep (compute_delay veryShort CHAT_CONNECT_DELAY_PARAMS
          (sinceLastFailure last_failure_at (now + d)) failure_count))

/-- Per-request send errors of the chat connection
(`crate::chat::SendError`); the websocket payload is its log-safe text. -/
inductive ChatSendError where
  | requestTimedOut
  | disconnected
  | websocket (message : String)
  | incomingDataInvalid
  | requestHasInvalidHeader
deriving DecidableEq

/-- A chat response, reduced to the fields the claims need. -/
structure ChatResponse where
  status : Nat
  body : Option String
deriving DecidableEq

/-- What `send_request_to_connected_chat` observes from one round through
the handler channel: the mpsc send can fail because the task hung up, the
oneshot responder can be dropped by the task, or a result arrives. -/
inductive SendAttemptOutcome where
  | channelClosed
  | responderDropped
  | replied (r : Except ChatSendError ChatResponse)
deriving DecidableEq

/-- Errors of `send_request_to_connected_chat` (service.rs lines 297-302). -/
inductive SendRequestError where
  | connectionLost
  | unknown (message : String)
  | requestTimedOut
deriving DecidableEq

/-- `send_request_to_connected_chat` (service.rs lines 308-338): channel
closure and responder drop become `ConnectionLost`, as does a
`Disconnected` send error; a request timeout and the remaining send errors
map to `RequestTimedOut` and `Unknown` messages. -/
def send_request_to_connected_chat : SendAttemptOutcome → Except SendRequestError ChatResponse
  | .channelClosed => .error .connectionLost
  | .responderDropped => .error .connectionLost
  | .replied (.ok resp) => .ok resp
  | .replied (.error .requestTimedOut) => .error .requestTimedOut
  | .replied (.error .disconnected) => .error .connectionLost
  | .replied (.error (.websocket m)) => .error (.unknown ("websocket error: " ++ m))
  | .replied (.error .incomingDataInvalid) => .error (.unknown "received invalid response")
  | .replied (.error .requestHasInvalidHeader) => .error (.unknown "request had invalid header")

/-- Acquiring a sender at the top of the `send_request` loop (service.rs
lines 182-190): reuse the live sender, or run `spawn_connected_chat`.
Carries the number of connect calls made alongside either outcome. -/
def acquireSender (veryShort : Duration → Bool)
    (connectScript : List (Duration × ConnectAttemptResult))
    (hasSender : Bool) (now : Duration) :
    Option (Except (FatalConnectError × Nat)
      (List (Duration × ConnectAttemptResult) × Nat × Duration)) :=
  if hasSender then some (.ok (connectScript, 0, now))
  else
    match spawn_connected_chat veryShort connectScript 0 none now with
    | none => none
    | some (.error fatal, _, n, _, _) => some (.error (fatal, n))
    | some (.ok (), cs, n, _, t) => some (.ok (cs, n, t))

/-- The `send_request` loop (service.rs lines 173-199): acquire a sender,
try the send; on `ConnectionLost` discard the sender and loop (so the next
iteration spawns a fresh connection and resends the same request); a
request timeout is terminal `RequestError::Timeout`; other send errors are
terminal `Unknown`; a response ends the loop.  The environment is the
connect script together with one `SendAttemptOutcome` per loop iteration;
`none` means a script ran out with the request still pending.  Returns the
result and the total number of `connect_chat` calls. -/
def send_request (veryShort : Duration → Bool) :
    List (Duration × ConnectAttemptResult) → List SendAttemptOutcome → Bool →
    Duration → Nat → Option (Except RequestError ChatResponse × Nat)
  | _, [], _, _, _ => none
  | connectScript, outcome :: rest, hasSender, now, calls =>
    match acquireSender veryShort connectScript hasSender now with
    | none => none
    | some (.error (fatal, n)) => some (.error (fatalToRequestError fatal), calls + n)
    | some (.ok (cs, n, t)) =>
      match send_request_to_connected_chat outcome with
      | .error .connectionLost => send_request veryShort cs rest false t (calls + n)
      | .ok resp => some (.ok resp, calls + n)
      | .error .requestTimedOut => some (.error .timeout, calls + n)
      | .error (.unknown m) => some (.error (.unknown m), calls + n)

/-- One item arriving on the handler task's incoming-request stream: a
request (carrying how long its in-flight handling takes) or the closure of
the stream (all senders dropped). -/
inductive StreamItem where
  | request (procDuration : Duration)
  | closed
deriving DecidableEq

/-- The observable outcome of a run of the handler task: when it
terminated, and whether it called `ChatConnection::disconnect()` on the
way out.  On every exit path the incoming-request stream is dropped when
the function returns. -/
structure TaskResult where
  endAt : Duration
  disconnectCalled : Bool
deriving DecidableEq

/-- `INACTIVITY_TIMEOUT` (service.rs line 426). -/
def INACTIVITY_TIMEOUT : Duration := 90

/-- When the `on_disconnect` branch of the select resolves strictly before
the other branch, yield its time.  Ties are resolved in favour of the
other branch; no claim depends on a tie. -/
def disconnectBefore : Option Duration → Duration → Option Duration
  | some td, t => if td < t then some td else none
  | none, _ => none

/-- `spawned_task_body` (service.rs lines 348-423) as a fueled interpreter
over virtual time.  Arguments: fuel, the current instant, the completion
instant of the request in progress (if any), the remaining stream arrivals
as absolute nondecreasing instants, whether the incoming stream is still
open, and the instant at which `on_disconnect` resolves (if ever).  With a
request in progress the task only waits for its completion or for
`on_disconnect`; when idle it waits for the next arrival under a fresh
`INACTIVITY_TIMEOUT` timer, or for `on_disconnect`.  On the `Disconnected`
event the source returns immediately — skipping the trailing
`chat.disconnect()` call — while the break paths (inactivity elapsed,
stream closed) do reach `chat.disconnect()`. -/
def spawned_task_body :
    Nat → Duration → Option Duration → List (Duration × StreamItem) → Bool →
    Option Duration → Option TaskResult
  | 0, _, _, _, _, _ => none
  | Nat.succ fuel, _, some finishAt, arrivals, streamOpen, disconnectAt =>
    (match disconnectBefore disconnectAt finishAt with
     | some td => some ⟨td, false⟩
     | none => spawned_task_body fuel finishAt none arrivals streamOpen disconnectAt)
  | Nat.succ fuel, now, none, arrivals, streamOpen, disconnectAt =>
    if streamOpen then
      match arrivals with
      | [] =>
        (match disconnectBefore disconnectAt (now + INACTIVITY_TIMEOUT) with
         | some td => some ⟨td, false⟩
         | none => some ⟨now + INACTIVITY_TIMEOUT, true⟩)
      | (t, item) :: rest =>
        if now + INACTIVITY_TIMEOUT < t then
          (match disconnectBefore disconnectAt (now + INACTIVITY_TIMEOUT) with
           | some td => some ⟨td, false⟩
           | none => some ⟨now + INACTIVITY_TIMEOUT, true⟩)
        else
          (match disconnectBefore disconnectAt t with
           | some td => some ⟨td, false⟩
           | none =>
             match item with
             | .request procDuration =>
               spawned_task_body fuel t (some (t + procDuration)) rest streamOpen disconnectAt
             | .closed => spawned_task_body fuel t none rest false disconnectAt)
    else
      some ⟨now, true⟩

/-- The observable outcome of `start_request`: whether `chat.send` was
invoked at all, whether the request's bytes reached the wire, and the
result delivered to the responder (if any). -/
structure StartRequestOutcome where
  sendStarted : Bool
  bytesOnWire : Bool
  delivered : Option (Except ChatSendError ChatResponse)
deriving DecidableEq

/-- `start_request` (service.rs lines 445-458).  If the responder is
already closed on entry, it returns without calling `chat.send`.
Otherwise `chat.send` races against `responder.closed()`; `chat.send` is
abstracted by the instant it first writes to the socket (`writeAt`), its
completion instant (`completeAt`, with `writeAt ≤ completeAt`), and its
result; `closedAt` is the instant the caller drops the responder. -/
def start_request (startTime : Duration) (closedAt : Option Duration)
    (writeAt completeAt : Duration) (sendResult : Except ChatSendError ChatResponse) :
    StartRequestOutcome :=
  match closedAt with
  | some tc =>
    if tc ≤ startTime then ⟨false, false, none⟩
    else if tc < completeAt then ⟨true, decide (writeAt ≤ tc), none⟩
    else ⟨true, true, some sendResult⟩
  | none => ⟨true, true, some sendResult⟩

/-- A request on the chat wire, reduced to the fields the registration
client sets (`crate::chat::Request`). -/
structure ChatRequest where
  method : String
  path : String
  body : Option String
  headers : List String
deriving DecidableEq

/-- Server-reported session state, reduced to the fields the src tests
exercise (`RegistrationSession`). -/
structure RegistrationSession where
  allowed_to_request_code : Bool
  verified : Bool
deriving DecidableEq

/-- The parsed body of a successful registration response
(`RegistrationResponse`). -/
structure RegistrationResponse where
  session_id : String
  session : RegistrationSession
deriving DecidableEq

/-- The session-facing state of a `RegistrationService` after a successful
entry point: the bound session id and the last server-reported session. -/
structure RegistrationServiceModel where
  session_id : String
  session : RegistrationSession
deriving DecidableEq

/-- Characters allowed in a URL-safe session id. -/
def isUrlSafeChar (c : Char) : Bool := c.isAlphanum || c == '-' || c == '_'

/-- Modelled from the spec: `SessionId` parsing (registration/session_id.rs
is not under src/): a `SessionId` is a URL-safe string, and parsing
preserves the text. -/
def sessionIdParse (s : String) : Option String :=
  if s ≠ "" ∧ s.data.all isUrlSafeChar = true then some s else none

/-- Modelled from the spec: the wire request built by
`impl From CreateSession for ChatRequest` (registration/request.rs is not
under src/): POST /v1/verification/session with the JSON body holding the
E.164 number and a single content-type header (spec section 6 and the src
test `create_session` in registration.rs). -/
def create_session_request (number : String) : ChatRequest :=
  { method := "POST"
    path := "/v1/verification/session"
    body := some ("\x7b\"number\":\"" ++ number ++ "\"\x7d")
    headers := ["content-type: application/json"] }

/-- Modelled from the spec: request ids are assigned monotonically in
submission order on a single connection, so the first request on a fresh
connection gets id 0. -/
def assignedRequestId (previouslySubmitted : Nat) : Nat := previouslySubmitted

/-- The wire trace of `RegistrationService::create_session` (service.rs
lines 71-90) on a fresh connection: exactly one request, with id 0. -/
def create_session_wire (number : String) : List (ChatRequest × Nat) :=
  [(create_session_request number, assignedRequestId 0)]

/-- The state constructed by `create_session` from a successful server
response (service.rs lines 75-90): parse the returned session id and store
the server-reported session. -/
def create_session (resp : RegistrationResponse) : Option RegistrationServiceModel :=
  (sessionIdParse resp.session_id).map fun sid =>
    { session_id := sid, session := resp.session }

/-- C10: `connect_attested_ws` collapses `NoResolvedRoutes`,
`AllAttemptsFailed` and the overall attempt `Timeout` into the single
`ConnectionTimedOut` error, while only `FatalConnect(e)` is surfaced
distinctly as `WebSocketConnect(e)`; the collapsed cases are therefore
indistinguishable to the caller. -/
theorem connect_attested_ws_error_collapse :
    connect_attested_ws_error (.other .noResolvedRoutes) = .connectionTimedOut
    ∧ connect_attested_ws_error (.other .allAttemptsFailed) = .connectionTimedOut
    ∧ (∀ d, connect_attested_ws_error (.timeout d) = .connectionTimedOut)
    ∧ (∀ e, connect_attested_ws_error (.other (.fatalConnect e)) = .webSocketConnect e)
    ∧ (∀ e, EnclaveError.webSocketConnect e ≠ EnclaveError.connectionTimedOut) := by
  refine ⟨rfl, rfl, fun d => rfl, fun e => rfl, fun e h => ?_⟩
  cases h

/-- C3: a `ClientAbort` transport failure is classified fatal (not
intermittent) by the classifier `connect_ws` installs, so the racer
abandons all remaining attempts — whatever they are — and returns
`FatalConnect` wrapping the websocket error around
`Transport(ClientAbort)`. -/
theorem client_abort_is_fatal_and_aborts_race :
    classify (.connect (.transport .clientAbort)) = .fatal
    ∧ connectWsClassifier (.other (.transport .clientAbort))
        = .brk (.connect (.transport .clientAbort))
    ∧ (∀ (C : Type) (rest : List (Except (InterfaceChangedOr WebSocketConnectError) C)),
        raceAttempts connectWsClassifier (.error (.other (.transport .clientAbort)) :: rest)
          = .error (.fatalConnect (.connect (.transport .clientAbort))))
    ∧ (∀ (C : Type) (rest : List (Except (InterfaceChangedOr WebSocketConnectError) C)),
        runRace connectWsClassifier (.error (.other (.transport .clientAbort)) :: rest)
          = .error (.fatalConnect (.connect (.transport .clientAbort)))) :=
  ⟨rfl, rfl, fun _ _ => rfl, fun _ _ => rfl⟩

/-- C2: if no connection attempt completes within `connect_timeout`,
`connect_ws` returns `TimeoutOr::Timeout` with `attempt_duration` equal to
`connect_timeout`, and the elapsed time is exactly `connect_timeout`. -/
theorem connect_ws_times_out_at_connect_timeout {C : Type}
    (connect_timeout : Duration)
    (race : Option (Duration × Except (ConnectError WebSocketServiceConnectError) C))
    (h : ∀ t r, race = some (t, r) → connect_timeout ≤ t) :
    connect_ws connect_timeout race
      = (connect_timeout, .error (.timeout connect_timeout)) := by
  match race with
  | none => rfl
  | some (t, r) =>
    have ht : connect_timeout ≤ t := h t r rfl
    simp only [connect_ws, if_neg (not_lt.mpr ht)]

/-- Witness for C2 at a hanging race and a 31-second timeout. -/
theorem connect_ws_times_out_witness :
    connect_ws (31 : Duration)
        (none : Option (Duration × Except (ConnectError WebSocketServiceConnectError) Unit))
      = (31, .error (.timeout 31)) :=
  connect_ws_times_out_at_connect_timeout 31 none (fun _ _ h => nomatch h)

/-- C4: when the responder is dropped before the handler begins writing the
request to the socket, nothing reaches the wire: if it is already closed
on entry, `chat.send` is never called at all, and if it closes before the
write instant, the select abandons the send with no bytes emitted. -/
theorem cancelled_before_send_writes_nothing
    (startTime writeAt completeAt tc : Duration)
    (res : Except ChatSendError ChatResponse)
    (hwc : writeAt ≤ completeAt) (hcw : tc < writeAt) :
    (start_request startTime (some tc) writeAt completeAt res).bytesOnWire = false
    ∧ (tc ≤ startTime →
        (start_request startTime (some tc) writeAt completeAt res).sendStarted = false) := by
  by_cases hs : tc ≤ startTime
  · simp [start_request, if_pos hs]
  · have hcc : tc < completeAt := lt_of_lt_of_le hcw hwc
    refine ⟨?_, fun h => absurd h hs⟩
    simp only [start_request, if_neg hs, if_pos hcc]
    simpa using not_le.mpr hcw

/-- Witness for C4: responder closed at entry, write at 1 s, completion at
2 s. -/
theorem cancelled_before_send_witness :
    (start_request 0 (some 0) 1 2 (.ok ⟨200, none⟩)).bytesOnWire = false
    ∧ ((0 : Duration) ≤ 0 →
        (start_request 0 (some 0) 1 2
          (.ok (⟨200, none⟩ : ChatResponse))).sendStarted = false) :=
  cancelled_before_send_writes_nothing 0 1 2 0 (.ok ⟨200, none⟩)
    (by norm_num) (by norm_num)

/-- C7: `spawn_connected_chat` classifies connect errors exactly as the
source does: `InvalidConnectionConfiguration` and `RetryLater` are fatal
(the latter surfacing the hint), `AppExpired` and `DeviceDeregistered` are
fatal `Unexpected` errors, all three map through the `RequestError`
conversion to the claimed messages, and `AllAttemptsFailed` and
`WebSocket(_)` (like `Timeout`) are retryable: the loop sleeps the
computed delay and tries the rest of the script with the failure count
incremented. -/
theorem spawn_connected_chat_error_classification :
    (∀ v d rest fc lf now,
      spawn_connected_chat v ((d, .err .invalidConnectionConfiguration) :: rest) fc lf now
        = some (.error .invalidConfiguration, rest, 1, [], now + d))
    ∧ (∀ v d rest fc lf now r,
      spawn_connected_chat v ((d, .err (.retryLater r)) :: rest) fc lf now
        = some (.error (.retryLater r), rest, 1, [], now + d))
    ∧ (∀ v d rest fc lf now,
      spawn_connected_chat v ((d, .err .appExpired) :: rest) fc lf now
        = some (.error (.unexpected "unauthenticated socket signaled app expired"),
            rest, 1, [], now + d))
    ∧ (∀ v d rest fc lf now,
      spawn_connected_chat v ((d, .err .deviceDeregistered) :: rest) fc lf now
        = some (.error (.unexpected "unauthenticated socket signaled deregistration"),
            rest, 1, [], now + d))
    ∧ fatalToRequestError .invalidConfiguration = .unknown "invalid chat client configuration"
    ∧ (∀ r, fatalToRequestError (.retryLater r) = .retryLater r)
    ∧ (∀ m, fatalToRequestError (.unexpected m) = .unknown ("unexpected error: " ++ m))
    ∧ (∀ v d rest fc lf now,
      spawn_connected_chat v ((d, .err .allAttemptsFailed) :: rest) fc lf now
        = (spawn_connected_chat v rest (fc + 1) (some (now + d))
            ((now + d) + compute_delay v CHAT_CONNECT_DELAY_PARAMS
              (sinceLastFailure lf (now + d)) fc)).map
          (retryStep (compute_delay v CHAT_CONNECT_DELAY_PARAMS
            (sinceLastFailure lf (now + d)) fc)))
    ∧ (∀ v d rest fc lf now e,
      spawn_connected_chat v ((d, .err (.websocket e)) :: rest) fc lf now
        = (spawn_connected_chat v rest (fc + 1) (some (now + d))
            ((now + d) + compute_delay v CHAT_CONNECT_DELAY_PARAMS
              (sinceLastFailure lf (now + d)) fc)).map
          (retryStep (compute_delay v CHAT_CONNECT_DELAY_PARAMS
            (sinceLastFailure lf (now + d)) fc))) :=
  ⟨fun _ _ _ _ _ _ => rfl, fun _ _ _ _ _ _ _ => rfl, fun _ _ _ _ _ _ => rfl,
    fun _ _ _ _ _ _ => rfl, rfl, fun _ => rfl, fun _ => rfl,
    fun _ _ _ _ _ _ => rfl, fun _ _ _ _ _ _ _ => rfl⟩

/-- C9: the retry delay between retryable chat connect attempts is computed
from exactly the parameter set of `CHAT_CONNECT_DELAY_PARAMS` (60 s age
cutoff, 1.5 cooldown growth, 10 count growth, max count 5, max delay
30 s), applied to the time since the previous failure and the running
failure count, which increments by one after each retryable failure: a
`Timeout` failure at head recurses with failure count `fc + 1`, recording
the delay computed at count `fc`; on a script of three retryable failures
the recorded delays use counts 0, 1, 2 in order (the first spacing being
`Duration::MAX`, hence delay 0). -/
theorem chat_connect_retry_delays :
    CHAT_CONNECT_DELAY_PARAMS
      = { age_cutoff := 60, cooldown_growth_factor := 3 / 2, count_growth_factor := 10,
          max_count := 5, max_delay := 30 }
    ∧ (∀ v d rest fc lf now,
      spawn_connected_chat v ((d, .err .timeout) :: rest) fc lf now
        = (spawn_connected_chat v rest (fc + 1) (some (now + d))
            ((now + d) + compute_delay v CHAT_CONNECT_DELAY_PARAMS
              (sinceLastFailure lf (now + d)) fc)).map
          (retryStep (compute_delay v CHAT_CONNECT_DELAY_PARAMS
            (sinceLastFailure lf (now + d)) fc)))
    ∧ (∀ v : Duration → Bool,
      spawn_connected_chat v
          [(0, .err .timeout), (0, .err .allAttemptsFailed),
           (0, .err (.websocket (.transport .tcpConnectionFailed))), (0, .ok)] 0 none 0
        = some (.ok (), [], 4,
            [0, compute_delay v CHAT_CONNECT_DELAY_PARAMS 0 1,
             compute_delay v CHAT_CONNECT_DELAY_PARAMS
               (compute_delay v CHAT_CONNECT_DELAY_PARAMS 0 1) 2],
            compute_delay v CHAT_CONNECT_DELAY_PARAMS 0 1
              + compute_delay v CHAT_CONNECT_DELAY_PARAMS
                  (compute_delay v CHAT_CONNECT_DELAY_PARAMS 0 1) 2)) := by
  refine ⟨rfl, fun _ _ _ _ _ _ => rfl, fun v => ?_⟩
  have hmax : compute_delay v CHAT_CONNECT_DELAY_PARAMS durationMax 0 = 0 := by
    rw [compute_delay, if_pos]
    norm_num [CHAT_CONNECT_DELAY_PARAMS, durationMax]
  simp [spawn_connected_chat, sinceLastFailure, retryStep, hmax]

/-- C1: the `send_request` helper loops to a terminal result: a lost
connection (channel closed, responder dropped, or a `Disconnected` send
error) discards the sender and retries the same request over a fresh
connection; a per-request timeout is terminal `RequestError::Timeout`; any
other send error is terminal `Unknown` with a message; a response ends the
loop.  In particular, with two transient connect failures followed by a
success and a server reply, the request succeeds and exactly 3
`connect_chat` calls are made. -/
theorem send_request_loop_behaviour :
    (∀ (v : Duration → Bool) (resp : ChatResponse),
      send_request v [(0, .err .timeout), (0, .err .timeout), (0, .ok)]
          [.replied (.ok resp)] false 0 0
        = some (.ok resp, 3))
    ∧ (∀ v cs rest now calls,
      send_request v cs (SendAttemptOutcome.channelClosed :: rest) true now calls
          = send_request v cs rest false now calls
        ∧ send_request v cs (SendAttemptOutcome.responderDropped :: rest) true now calls
          = send_request v cs rest false now calls
        ∧ send_request v cs (SendAttemptOutcome.replied (.error .disconnected) :: rest)
            true now calls
          = send_request v cs rest false now calls)
    ∧ (∀ v cs rest now calls,
      send_request v cs (SendAttemptOutcome.replied (.error .requestTimedOut) :: rest)
          true now calls
        = some (.error .timeout, calls))
    ∧ (∀ v cs rest now calls m,
      send_request v cs (SendAttemptOutcome.replied (.error (.websocket m)) :: rest)
          true now calls
        = some (.error (.unknown ("websocket error: " ++ m)), calls))
    ∧ (∀ v cs rest now calls resp,
      send_request v cs (SendAttemptOutcome.replied (.ok resp) :: rest) true now calls
        = some (.ok resp, calls)) := by
  refine ⟨fun v resp => ?_, fun _ _ _ _ _ => ⟨rfl, rfl, rfl⟩,
    fun _ _ _ _ _ => rfl, fun _ _ _ _ _ _ => rfl, fun _ _ _ _ _ _ => rfl⟩
  have hmax : compute_delay v CHAT_CONNECT_DELAY_PARAMS durationMax 0 = 0 := by
    rw [compute_delay, if_pos]
    norm_num [CHAT_CONNECT_DELAY_PARAMS, durationMax]
  simp [send_request, acquireSender, spawn_connected_chat, sinceLastFailure, retryStep,
    send_request_to_connected_chat, hmax]

/-- C5: an idle handler task with no incoming request shuts down exactly
`INACTIVITY_TIMEOUT` = 90 s after its last activity, calling
`chat.disconnect()` on the way out (and dropping the stream, so no further
request is accepted): with no arrivals at all, with the next arrival past
the deadline, and after a handled request the timer restarts from the
completion instant (request at 10 s taking 5 s: shutdown at 105 s). -/
theorem idle_task_shuts_down_at_inactivity_timeout :
    INACTIVITY_TIMEOUT = 90
    ∧ (∀ fuel now, spawned_task_body (fuel + 1) now none [] true none
        = some ⟨now + INACTIVITY_TIMEOUT, true⟩)
    ∧ (∀ fuel now t item rest, now + INACTIVITY_TIMEOUT < t →
        spawned_task_body (fuel + 1) now none ((t, item) :: rest) true none
          = some ⟨now + INACTIVITY_TIMEOUT, true⟩)
    ∧ spawned_task_body 3 0 none [(10, .request 5)] true none = some ⟨105, true⟩ := by
  refine ⟨rfl, fun fuel now => rfl, fun fuel now t item rest h => ?_, ?_⟩
  · simp [spawned_task_body, disconnectBefore, if_pos h]
  · norm_num [spawned_task_body, disconnectBefore, INACTIVITY_TIMEOUT]

/-- Witness for C5 with a first arrival far beyond the deadline. -/
theorem idle_task_shuts_down_witness :
    spawned_task_body 1 0 none [(200, StreamItem.closed)] true none
      = some ⟨0 + INACTIVITY_TIMEOUT, true⟩ :=
  idle_task_shuts_down_at_inactivity_timeout.2.2.1 0 0 200 .closed []
    (by norm_num [INACTIVITY_TIMEOUT])

/-- C6 counterexample: when `on_disconnect` resolves (here at 5 s) while
the task is idle, the task exits at that instant with
`disconnectCalled = false` — the source returns from the `Disconnected`
arm before the trailing `chat.disconnect()` call — contradicting the
claim that the shutdown path after `on_disconnect` calls `disconnect()`. -/
theorem on_disconnect_skips_disconnect_cex :
    spawned_task_body 1 0 none [] true (some 5) = some ⟨5, false⟩
    ∧ (spawned_task_body 1 0 none [] true (some 5)).map TaskResult.disconnectCalled
        ≠ some true := by
  have h : spawned_task_body 1 0 none [] true (some 5) = some ⟨5, false⟩ := by
    norm_num [spawned_task_body, disconnectBefore, INACTIVITY_TIMEOUT]
  refine ⟨h, ?_⟩
  rw [h]
  simp

/-- C6 as amended: whenever `on_disconnect` resolves first (while idle or
with a request in flight), the task terminates at that instant and drops
the incoming stream, but it returns without calling
`ChatConnection::disconnect()`; the `disconnect()` call happens only on
the inactivity-timeout and stream-closed exit paths. -/
theorem on_disconnect_returns_without_disconnect :
    (∀ fuel now td, td < now + INACTIVITY_TIMEOUT →
      spawned_task_body (fuel + 1) now none [] true (some td) = some ⟨td, false⟩)
    ∧ (∀ fuel now finishAt td arrivals streamOpen, td < finishAt →
      spawned_task_body (fuel + 1) now (some finishAt) arrivals streamOpen (some td)
        = some ⟨td, false⟩) := by
  constructor
  · intro fuel now td h
    simp [spawned_task_body, disconnectBefore, if_pos h]
  · intro fuel now finishAt td arrivals streamOpen h
    simp [spawned_task_body, disconnectBefore, if_pos h]

/-- Witness for the amended C6: disconnect at 7 s with a request in flight
finishing at 20 s. -/
theorem on_disconnect_returns_witness :
    spawned_task_body 1 0 (some 20) [] true (some 7) = some ⟨7, false⟩ :=
  on_disconnect_returns_without_disconnect.2 0 0 20 7 [] true (by norm_num)

/-- C8: `create_session` sends exactly one request — POST
/v1/verification/session with JSON body holding the E.164 number, the
single content-type header, and request id 0 (shown both generically and
at the number of the src test) — and on a successful reply the service
exposes the server-returned session id and session state unchanged. -/
theorem create_session_wire_and_session_state :
    (∀ number, create_session_wire number
        = [({ method := "POST", path := "/v1/verification/session",
              body := some ("\x7b\"number\":\"" ++ number ++ "\"\x7d"),
              headers := ["content-type: application/json"] }, 0)])
    ∧ create_session_request "+18005550101"
        = { method := "POST", path := "/v1/verification/session",
            body := some "\x7b\"number\":\"+18005550101\"\x7d",
            headers := ["content-type: application/json"] }
    ∧ (∀ resp svc, create_session resp = some svc →
        svc.session_id = resp.session_id ∧ svc.session = resp.session) := by
  refine ⟨fun _ => rfl, by decide, fun resp svc h => ?_⟩
  rcases hp : sessionIdParse resp.session_id with _ | sid
  · rw [create_session, hp] at h
    simp at h
  · have hsid : sid = resp.session_id := by
      unfold sessionIdParse at hp
      split at hp
      · cases hp
        rfl
      · cases hp
    rw [create_session, hp] at h
    simp only [Option.map_some'] at h
    cases h
    exact ⟨hsid, rfl⟩

/-- Witness for C8 at the src test's response. -/
theorem create_session_state_witness :
    ((⟨"sessionId", ⟨true, false⟩⟩ : RegistrationServiceModel).session_id
        = (⟨"sessionId", ⟨true, false⟩⟩ : RegistrationResponse).session_id)
    ∧ (⟨"sessionId", ⟨true, false⟩⟩ : RegistrationServiceModel).session
        = (⟨"sessionId", ⟨true, false⟩⟩ : RegistrationResponse).session :=
  create_session_wire_and_session_state.2.2 ⟨"sessionId", ⟨true, false⟩⟩
    ⟨"sessionId", ⟨true, false⟩⟩ (by decide)

end LibsignalNet
